import Mathlib

/- Verification development for the FTCPredictor service (src/app.py).
   The Python functions are shallowly embedded as Lean definitions:
   JSON dictionaries become structures, association lists, or Option-valued
   oracles; Python floats become exact rationals; Python round (half to
   even) is modelled by pyRound.  Upstream HTTP fetches are abstracted as
   oracle functions passed in as arguments. -/

namespace FTC

/-- Outcome labels used by app.py (the strings red, blue, tie). -/
inductive Winner
  | red
  | blue
  | tie
deriving DecidableEq

/-- A match id as found in the upstream JSON: either a number or a string.
    The source only inspects ids that are strings (isinstance check), using
    0 as the default for a missing id, which the int constructor covers. -/
inductive MatchId
  | int (n : ℤ)
  | str (s : String)
deriving DecidableEq

/-- Python round to the nearest integer with halves to even, models round(x)
    in exact rational arithmetic (binary floating point artifacts of the
    source are not modelled). -/
def pyRound (q : ℚ) : ℤ :=
  let f : ℤ := ⌊q⌋
  if q - f > 1/2 then f + 1
  else if q - f < 1/2 then f
  else if f % 2 = 0 then f else f + 1

/-- Python round(x, 1) in exact rational arithmetic. -/
def round1 (q : ℚ) : ℚ := (pyRound (q * 10) : ℚ) / 10

/-- Python round(x, 2) in exact rational arithmetic. -/
def round2 (q : ℚ) : ℚ := (pyRound (q * 100) : ℚ) / 100

/-- Whitespace stripped by Python int() around the digits. -/
def isWs (c : Char) : Bool := c == ' ' || c == '\t' || c == '\n' || c == '\r'

/-- Strip leading and trailing whitespace from a character list. -/
def trimWs (l : List Char) : List Char := ((l.dropWhile isWs).reverse.dropWhile isWs).reverse

/-- Numeric value of a digit run. -/
def digitsVal (l : List Char) : ℕ := l.foldl (fun a c => a * 10 + (c.toNat - 48)) 0

/-- True when the character list is a nonempty run of decimal digits. -/
def allDigits (l : List Char) : Bool := !l.isEmpty && l.all Char.isDigit

/-- Model of Python int(s) on a string: optional sign and a nonempty digit
    run, surrounding whitespace allowed; any other shape raises ValueError,
    which the source catches and treats as not parsing (digit-group
    underscores are not modelled). -/
def pyParseInt (s : String) : Option ℤ :=
  match trimWs s.toList with
  | '-' :: rest => if allDigits rest then some (-(digitsVal rest : ℤ)) else none
  | '+' :: rest => if allDigits rest then some ((digitsVal rest : ℤ)) else none
  | l => if allDigits l then some ((digitsVal l : ℤ)) else none

/-- The non-qual match filter of app.py lines 216-224 and 453-460: a match is
    skipped exactly when its id is a string that parses as an integer
    strictly greater than 10000. -/
def isSkipped : MatchId → Bool
  | MatchId.int _ => false
  | MatchId.str s =>
      match pyParseInt s with
      | some n => decide (10000 < n)
      | none => false

/-- One alliance's score object: totalPoints and the three bonus-achieved
    flags.  The source reads these with dict.get and a default, so a missing
    key is represented by the default value itself. -/
structure AllianceScore where
  totalPoints : ℤ
  movementBonus : Bool
  goalBonus : Bool
  patternBonus : Bool
deriving DecidableEq

/-- The scores dictionary of a match.  red and blue are None when the key is
    absent, None-valued, or falsy (empty dict); extra records whether any
    other key makes the dictionary itself truthy. -/
structure ScoresDict where
  red : Option AllianceScore
  blue : Option AllianceScore
  extra : Bool
deriving DecidableEq

/-- Python truthiness of the scores dictionary (nonempty dict). -/
def ScoresDict.truthy (s : ScoresDict) : Bool := s.red.isSome || s.blue.isSome || s.extra

/-- One entry of a match's teams array: a team number and its alliance tag
    (the strings Red and Blue in upstream data). -/
structure TeamEntry where
  teamNumber : ℤ
  alliance : String
deriving DecidableEq

/-- A raw match record as consumed by the calculator. -/
structure Match where
  id : MatchId
  teams : List TeamEntry
  scores : Option ScoresDict
deriving DecidableEq

/-- Truthiness of match.get of scores, the played test of app.py line 365. -/
def Match.scoresTruthy (m : Match) : Bool :=
  match m.scores with
  | some s => s.truthy
  | none => false

/-- The full played test of app.py lines 233 and 466: scores truthy and both
    the red and the blue sub-objects truthy. -/
def Match.isPlayedFull (m : Match) : Bool :=
  match m.scores with
  | some s => s.truthy && s.red.isSome && s.blue.isSome
  | none => false

/-- Team numbers on the Red alliance, in order (app.py line 225). -/
def redTeams (m : Match) : List ℤ :=
  (m.teams.filter (fun t => t.alliance == "Red")).map TeamEntry.teamNumber

/-- Team numbers on the Blue alliance, in order (app.py line 226). -/
def blueTeams (m : Match) : List ℤ :=
  (m.teams.filter (fun t => t.alliance == "Blue")).map TeamEntry.teamNumber

/-- Deduplication keeping first occurrences, with an accumulator. -/
def dedupAux : List ℤ → List ℤ → List ℤ
  | [], acc => acc.reverse
  | a :: l, acc => if a ∈ acc then dedupAux l acc else dedupAux l (a :: acc)

/-- Deduplicate a list of team numbers keeping first occurrences; models the
    Python set of teams (iteration order of a set is arbitrary, the derived
    dictionary is order independent). -/
def dedupFirst (l : List ℤ) : List ℤ := dedupAux l []

/-- All team numbers appearing in any match of the event, deduplicated
    (app.py lines 90-97: every match contributes, played or not, and despite
    the comment no id filter is applied there). -/
def eventTeams (ms : List Match) : List ℤ :=
  dedupFirst (ms.flatMap (fun m => m.teams.map TeamEntry.teamNumber))

/-- A team appears in some match of the list. -/
def appearsIn (t : ℤ) (ms : List Match) : Prop :=
  ∃ m ∈ ms, ∃ te ∈ m.teams, te.teamNumber = t

instance (t : ℤ) (ms : List Match) : Decidable (appearsIn t ms) := by
  unfold appearsIn; infer_instance

/-- The per-team OPR value chosen by calculate_opr: the season-best oracle
    when use_highest_season_opr is set, else the current-event stats oracle
    (totalPointsNp); both default to 0 when the oracle has nothing
    (app.py lines 102-127). -/
def oprValue (statsOpr seasonHighest : ℤ → Option ℚ) (useSeason : Bool) (t : ℤ) : ℚ :=
  if useSeason then (seasonHighest t).getD 0 else (statsOpr t).getD 0

/-- Embedding of FTCStatsCalculator.calculate_opr (app.py lines 84-129),
    restricted to the opr_data result.  The upstream stats fetches are the
    two oracle arguments: statsOpr t is the totalPointsNp value when the
    event stats for t exist and carry an opr key, seasonHighest t is the
    highest_opr of get_team_season_stats.  An empty match list returns an
    empty mapping; otherwise every team appearing in any match receives an
    entry.  No equation system is ever assembled. -/
def calculate_opr (ms : List Match) (statsOpr seasonHighest : ℤ → Option ℚ)
    (useSeason : Bool) : List (ℤ × ℚ) :=
  if ms.isEmpty then []
  else (eventTeams ms).map (fun t => (t, oprValue statsOpr seasonHighest useSeason t))

/-- Lookup in an association list with default 0; models dict.get(team, 0)
    on the opr_data dictionary. -/
def lookupD (o : List (ℤ × ℚ)) (t : ℤ) : ℚ :=
  match o with
  | [] => 0
  | (a, v) :: rest => if a = t then v else lookupD rest t

/-- Key membership in an association list; models the key set of the
    opr_data dictionary. -/
def hasKey (o : List (ℤ × ℚ)) (t : ℤ) : Bool :=
  match o with
  | [] => false
  | (a, _) :: rest => if a = t then true else hasKey rest t

/-- Sum of opr_data.get(team, 0) over a team list (app.py lines 293-294,
    473-474, 531-532). -/
def oprSum (o : List (ℤ × ℚ)) (ts : List ℤ) : ℚ := (ts.map (lookupD o)).sum

/-- One team's entry of the rp_data dictionary built by calculate_rp_simple
    (app.py lines 131-196): the three threshold booleans, the rounded
    percentage averages and the rounded percentage probabilities. -/
structure RpEntry where
  movement_rp : Bool
  goal_rp : Bool
  pattern_rp : Bool
  movement_avg : ℤ
  goal_avg : ℤ
  pattern_avg : ℤ
  movement_prob : ℤ
  goal_prob : ℤ
  pattern_prob : ℤ
deriving DecidableEq

/-- rp_data.get(team, dict()).get(field, 0): an integer field of a team's rp
    entry, defaulting to 0 for an unknown team. -/
def rpField (r : ℤ → Option RpEntry) (t : ℤ) (f : RpEntry → ℤ) : ℤ :=
  match r t with
  | some e => f e
  | none => 0

/-- Result record of the local helper calculate_alliance_rps inside
    calculate_leaderboard (app.py lines 300-326). -/
structure AllianceRps where
  movement : ℤ
  goal : ℤ
  pattern : ℤ
  total : ℤ
  movement_prob : ℤ
  goal_prob : ℤ
  pattern_prob : ℤ
deriving DecidableEq

/-- Embedding of calculate_alliance_rps (app.py lines 300-326): for a
    two-team alliance, average the members' per-bonus probability
    percentages (divide the sum by 200 to get a probability) and award one
    predicted ranking point per objective whose probability strictly exceeds
    one half; any other team count yields the all-zero record. -/
def calculate_alliance_rps (r : ℤ → Option RpEntry) (teams_list : List ℤ) : AllianceRps :=
  match teams_list with
  | [t1, t2] =>
      let movement_prob : ℚ :=
        ((rpField r t1 RpEntry.movement_prob + rpField r t2 RpEntry.movement_prob : ℤ) : ℚ) / 200
      let goal_prob : ℚ :=
        ((rpField r t1 RpEntry.goal_prob + rpField r t2 RpEntry.goal_prob : ℤ) : ℚ) / 200
      let pattern_prob : ℚ :=
        ((rpField r t1 RpEntry.pattern_prob + rpField r t2 RpEntry.pattern_prob : ℤ) : ℚ) / 200
      let movement_rp : ℤ := if movement_prob > 1/2 then 1 else 0
      let goal_rp : ℤ := if goal_prob > 1/2 then 1 else 0
      let pattern_rp : ℤ := if pattern_prob > 1/2 then 1 else 0
      { movement := movement_rp
        goal := goal_rp
        pattern := pattern_rp
        total := movement_rp + goal_rp + pattern_rp
        movement_prob := pyRound (movement_prob * 100)
        goal_prob := pyRound (goal_prob * 100)
        pattern_prob := pyRound (pattern_prob * 100) }
  | _ =>
      { movement := 0, goal := 0, pattern := 0, total := 0
        movement_prob := 0, goal_prob := 0, pattern_prob := 0 }

/-- Actual winner from final scores (app.py lines 237 and 470). -/
def actualWinner (red_score blue_score : ℤ) : Winner :=
  if red_score > blue_score then Winner.red
  else if blue_score > red_score then Winner.blue
  else Winner.tie

/-- Per-alliance actual outcome of a played match. -/
structure ActualOutcome where
  red_rp : ℤ
  blue_rp : ℤ
  red_win : ℚ
  blue_win : ℚ
deriving DecidableEq

/-- Embedding of the actual ranking point computation for a played match
    (app.py lines 237-274, duplicated at 470-506): one ranking point per
    achieved bonus flag, then 3 points and win credit 1 to the winner on
    total score, or 1 point and win credit one half to each side on a tie. -/
def actualRps (rs bs : AllianceScore) : ActualOutcome :=
  let red_base : ℤ := (if rs.movementBonus then 1 else 0)
    + (if rs.goalBonus then 1 else 0) + (if rs.patternBonus then 1 else 0)
  let blue_base : ℤ := (if bs.movementBonus then 1 else 0)
    + (if bs.goalBonus then 1 else 0) + (if bs.patternBonus then 1 else 0)
  match actualWinner rs.totalPoints bs.totalPoints with
  | Winner.red => { red_rp := red_base + 3, blue_rp := blue_base, red_win := 1, blue_win := 0 }
  | Winner.blue => { red_rp := red_base, blue_rp := blue_base + 3, red_win := 0, blue_win := 1 }
  | Winner.tie =>
      { red_rp := red_base + 1, blue_rp := blue_base + 1, red_win := 1/2, blue_win := 1/2 }

/-- Predicted winner rule of calculate_leaderboard, app.py line 297,
    embedded verbatim: the elif tests blue_opr less than red_opr (not
    greater), so the blue branch can never fire and every non red win
    falls through to tie. -/
def lbPredictedWinner (red_opr blue_opr : ℚ) : Winner :=
  if red_opr > blue_opr then Winner.red
  else if blue_opr < red_opr then Winner.blue
  else Winner.tie

/-- Predicted winner rule of get_event_predictions, app.py lines 475 and
    593: red when its OPR sum is strictly greater, blue otherwise. -/
def predPredictedWinner (red_opr blue_opr : ℚ) : Winner :=
  if red_opr > blue_opr then Winner.red else Winner.blue

/-- Running totals tracked per team by calculate_leaderboard
    (app.py lines 203-211). -/
structure TeamStats where
  total_rp : ℤ
  total_wins : ℚ
  total_matches : ℕ
  scores : List ℤ
  is_predicted : Bool
deriving DecidableEq

/-- Initial per-team record (app.py lines 204-211). -/
def baseStats : TeamStats :=
  { total_rp := 0, total_wins := 0, total_matches := 0, scores := [], is_predicted := false }

/-- One accumulation step of the four update loops (app.py lines 277-289 and
    347-361): add the alliance ranking points and win credit, count the
    match, append the per-match ranking points, and set the predicted flag
    on predicted contributions. -/
def addResult (rp : ℤ) (win : ℚ) (pred : Bool) (s : TeamStats) : TeamStats :=
  { total_rp := s.total_rp + rp
    total_wins := s.total_wins + win
    total_matches := s.total_matches + 1
    scores := s.scores ++ [rp]
    is_predicted := s.is_predicted || pred }

/-- The teams dictionary as a finite map from team number to running
    totals. -/
def TState : Type := ℤ → Option TeamStats

/-- Update one team's record if it is tracked (the `if team in teams` guard
    of the source); untracked teams are left alone. -/
def updateTeam (st : TState) (t : ℤ) (rp : ℤ) (win : ℚ) (pred : Bool) : TState :=
  fun u => if u = t then (st t).map (addResult rp win pred) else st u

/-- Credit every member of one alliance in order (one of the four for-loops
    over red_teams or blue_teams). -/
def creditAlliance (ts : List ℤ) (rp : ℤ) (win : ℚ) (pred : Bool) (st : TState) : TState :=
  ts.foldl (fun s t => updateTeam s t rp win pred) st

/-- The initial teams dictionary: one base record per key of opr_data
    (app.py lines 203-211). -/
def initState (o : List (ℤ × ℚ)) : TState :=
  fun t => if hasKey o t then some baseStats else none

/-- Accumulation performed for a played match (app.py lines 234-289): both
    alliances credited with the actual outcome. -/
def playedUpdate (red_teams blue_teams : List ℤ) (rs bs : AllianceScore) (st : TState) :
    TState :=
  creditAlliance blue_teams (actualRps rs bs).blue_rp (actualRps rs bs).blue_win false
    (creditAlliance red_teams (actualRps rs bs).red_rp (actualRps rs bs).red_win false st)

/-- Accumulation performed for a scheduled match (app.py lines 291-361):
    both alliances credited with the predicted outcome, marking the entries
    as predicted. -/
def predictedUpdate (o : List (ℤ × ℚ)) (r : ℤ → Option RpEntry)
    (red_teams blue_teams : List ℤ) (st : TState) : TState :=
  let red_rps := calculate_alliance_rps r red_teams
  let blue_rps := calculate_alliance_rps r blue_teams
  match lbPredictedWinner (oprSum o red_teams) (oprSum o blue_teams) with
  | Winner.red =>
      creditAlliance blue_teams blue_rps.total 0 true
        (creditAlliance red_teams (red_rps.total + 3) 1 true st)
  | Winner.blue =>
      creditAlliance blue_teams (blue_rps.total + 3) 1 true
        (creditAlliance red_teams red_rps.total 0 true st)
  | Winner.tie =>
      creditAlliance blue_teams (blue_rps.total + 1) (1/2) true
        (creditAlliance red_teams (red_rps.total + 1) (1/2) true st)

/-- Embedding of the per-match body of calculate_leaderboard (app.py lines
    214-361): skip non-qual ids, skip malformed alliances, then either
    accumulate the actual outcome (both alliance scores present) or the
    predicted outcome. -/
def processMatch (o : List (ℤ × ℚ)) (r : ℤ → Option RpEntry) (st : TState) (m : Match) :
    TState :=
  if isSkipped m.id then st
  else
    let red_teams := redTeams m
    let blue_teams := blueTeams m
    if red_teams.length = 2 ∧ blue_teams.length = 2 then
      match m.scores with
      | some sc =>
          match sc.red, sc.blue with
          | some rs, some bs => playedUpdate red_teams blue_teams rs bs st
          | _, _ => predictedUpdate o r red_teams blue_teams st
      | none => predictedUpdate o r red_teams blue_teams st
    else st

/-- Fold the per-match body over all matches starting from the initial
    dictionary. -/
def finalState (o : List (ℤ × ℚ)) (r : ℤ → Option RpEntry) (ms : List Match) : TState :=
  ms.foldl (processMatch o r) (initState o)

/-- One row of the final leaderboard (app.py lines 377-385).  avg_rp and
    win_rate carry the same half-to-even display rounding as the source. -/
structure LeaderboardEntry where
  team_number : ℤ
  avg_rp : ℚ
  total_rp : ℤ
  total_matches : ℕ
  win_rate : ℚ
  median_rp : ℤ
  has_predictions : Bool
deriving DecidableEq

/-- Build one leaderboard row from a team's running totals (app.py lines
    368-385): averages over the match count, and the median is the element
    at index length over 2 of the ascending-sorted per-match score list. -/
def mkEntry (t : ℤ) (d : TeamStats) : LeaderboardEntry :=
  { team_number := t
    avg_rp := round2 ((d.total_rp : ℚ) / (d.total_matches : ℚ))
    total_rp := d.total_rp
    total_matches := d.total_matches
    win_rate := round1 (d.total_wins / (d.total_matches : ℚ) * 100)
    median_rp := (List.insertionSort (fun a b => a ≤ b) d.scores).getD (d.scores.length / 2) 0
    has_predictions := d.is_predicted }

/-- Sort order of app.py line 396: descending by total ranking points with
    descending average ranking points as the tie break; a stable insertion
    sort with this relation reproduces Python's stable sort with
    reverse=True on the key pair. -/
def lbBefore (a b : LeaderboardEntry) : Prop :=
  b.total_rp < a.total_rp ∨ (b.total_rp = a.total_rp ∧ b.avg_rp ≤ a.avg_rp)

instance : DecidableRel lbBefore := fun a b =>
  inferInstanceAs (Decidable (b.total_rp < a.total_rp ∨ (b.total_rp = a.total_rp ∧ b.avg_rp ≤ a.avg_rp)))

/-- Event status rule of app.py lines 387-393. -/
def eventStatus (played upcoming : ℕ) : String :=
  if upcoming > 0 then (if played > 0 then "in_progress" else "not_started") else "completed"

/-- Result of calculate_leaderboard (app.py lines 398-404). -/
structure LeaderboardResult where
  leaderboard : List LeaderboardEntry
  event_status : String
  played_matches : ℕ
  upcoming_matches : ℕ
  total_matches : ℕ
deriving DecidableEq

/-- Embedding of FTCStatsCalculator.calculate_leaderboard (app.py lines
    198-404).  The played and upcoming counts at lines 365-366 test only the
    truthiness of the scores field, unlike the per-match aggregation which
    also requires both alliance sub-scores. -/
def calculate_leaderboard (o : List (ℤ × ℚ)) (r : ℤ → Option RpEntry) (ms : List Match) :
    LeaderboardResult :=
  let st := finalState o r ms
  let keys := dedupFirst (o.map Prod.fst)
  let entries := keys.filterMap (fun t =>
    match st t with
    | some d => if 0 < d.total_matches then some (mkEntry t d) else none
    | none => none)
  let total_played := ms.countP (fun m => m.scoresTruthy)
  let total_upcoming := ms.length - total_played
  { leaderboard := List.insertionSort lbBefore entries
    event_status := eventStatus total_played total_upcoming
    played_matches := total_played
    upcoming_matches := total_upcoming
    total_matches := ms.length }

/-- Confidence formula of get_event_predictions (app.py lines 534-538): the
    absolute OPR gap over the OPR total as a percentage when the total is
    positive, 0 otherwise. -/
def confidence (red_opr blue_opr : ℚ) : ℚ :=
  if red_opr + blue_opr > 0 then |red_opr - blue_opr| / (red_opr + blue_opr) * 100 else 0

/-- Winner confidence of app.py line 594: confidence plus 50, rounded, then
    clamped into the range 50 to 100. -/
def winner_confidence (c : ℚ) : ℤ := min 100 (max 50 (pyRound (c + 50)))

/-- Result record of the local helper predict_alliance_rps inside
    get_event_predictions (app.py lines 540-576). -/
structure PredRps where
  movement_rp : Bool
  goal_rp : Bool
  pattern_rp : Bool
  movement_avg : ℤ
  goal_avg : ℤ
  pattern_avg : ℤ
  movement_prob : ℤ
  goal_prob : ℤ
  pattern_prob : ℤ
deriving DecidableEq

/-- Embedding of predict_alliance_rps (app.py lines 540-576): average the two
    members' per-bonus percentage averages and predict an objective achieved
    exactly when the averaged percentage strictly exceeds 50; any other team
    count yields the all-zero record. -/
def predict_alliance_rps (r : ℤ → Option RpEntry) (teams : List ℤ) : PredRps :=
  match teams with
  | [t1, t2] =>
      let movement_avg : ℚ :=
        ((rpField r t1 RpEntry.movement_avg + rpField r t2 RpEntry.movement_avg : ℤ) : ℚ) / 2
      let goal_avg : ℚ :=
        ((rpField r t1 RpEntry.goal_avg + rpField r t2 RpEntry.goal_avg : ℤ) : ℚ) / 2
      let pattern_avg : ℚ :=
        ((rpField r t1 RpEntry.pattern_avg + rpField r t2 RpEntry.pattern_avg : ℤ) : ℚ) / 2
      let movement_prob : ℚ := movement_avg / 100
      let goal_prob : ℚ := goal_avg / 100
      let pattern_prob : ℚ := pattern_avg / 100
      { movement_rp := decide (movement_avg > 50)
        goal_rp := decide (goal_avg > 50)
        pattern_rp := decide (pattern_avg > 50)
        movement_avg := pyRound movement_avg
        goal_avg := pyRound goal_avg
        pattern_avg := pyRound pattern_avg
        movement_prob := pyRound (movement_prob * 100)
        goal_prob := pyRound (goal_prob * 100)
        pattern_prob := pyRound (pattern_prob * 100) }
  | _ =>
      { movement_rp := false, goal_rp := false, pattern_rp := false
        movement_avg := 0, goal_avg := 0, pattern_avg := 0
        movement_prob := 0, goal_prob := 0, pattern_prob := 0 }

/-- One record of the predictions list (app.py lines 605-618). -/
structure PredEntry where
  match_number : MatchId
  red_teams : List ℤ
  blue_teams : List ℤ
  red_opr_sum : ℚ
  blue_opr_sum : ℚ
  predicted_winner : Winner
  confidence_percentage : ℚ
  winner_confidence : ℤ
  red_rp_predictions : PredRps
  blue_rp_predictions : PredRps
  red_total_rp : ℤ
  blue_total_rp : ℤ
deriving DecidableEq

/-- One record of the past_matches list (app.py lines 508-527). -/
structure PastEntry where
  match_number : MatchId
  red_teams : List ℤ
  blue_teams : List ℤ
  red_score : ℤ
  blue_score : ℤ
  actual_winner : Winner
  predicted_winner : Winner
  red_opr_sum : ℚ
  blue_opr_sum : ℚ
  correct_prediction : Bool
  red_rp : ℤ
  blue_rp : ℤ
  red_movement_rp : Bool
  blue_movement_rp : Bool
  red_goal_rp : Bool
  blue_goal_rp : Bool
  red_pattern_rp : Bool
  blue_pattern_rp : Bool
deriving DecidableEq

/-- Build the prediction record for an upcoming match (app.py lines 528-618):
    OPR sums, confidence, predicted bonus objectives, predicted winner
    (strictly greater OPR wins, blue otherwise), winner confidence, and
    predicted ranking point totals with 3 points to the predicted winner
    (the tie arm of lines 601-603 is unreachable from this winner rule). -/
def mkPred (o : List (ℤ × ℚ)) (r : ℤ → Option RpEntry) (m : Match) : PredEntry :=
  let red_teams := redTeams m
  let blue_teams := blueTeams m
  let red_opr := oprSum o red_teams
  let blue_opr := oprSum o blue_teams
  let conf := confidence red_opr blue_opr
  let red_rps := predict_alliance_rps r red_teams
  let blue_rps := predict_alliance_rps r blue_teams
  let red_total : ℤ := (if red_rps.movement_rp then 1 else 0)
    + (if red_rps.goal_rp then 1 else 0) + (if red_rps.pattern_rp then 1 else 0)
  let blue_total : ℤ := (if blue_rps.movement_rp then 1 else 0)
    + (if blue_rps.goal_rp then 1 else 0) + (if blue_rps.pattern_rp then 1 else 0)
  let pw := predPredictedWinner red_opr blue_opr
  let totals : ℤ × ℤ :=
    match pw with
    | Winner.red => (red_total + 3, blue_total)
    | Winner.blue => (red_total, blue_total + 3)
    | Winner.tie => (red_total + 1, blue_total + 1)
  { match_number := m.id
    red_teams := red_teams
    blue_teams := blue_teams
    red_opr_sum := round1 red_opr
    blue_opr_sum := round1 blue_opr
    predicted_winner := pw
    confidence_percentage := round1 conf
    winner_confidence := winner_confidence conf
    red_rp_predictions := red_rps
    blue_rp_predictions := blue_rps
    red_total_rp := totals.1
    blue_total_rp := totals.2 }

/-- Build the past-match record for a played match (app.py lines 466-527);
    the inline ranking point arithmetic there repeats the rule embodied in
    actualRps. -/
def mkPast (o : List (ℤ × ℚ)) (m : Match) (rs bs : AllianceScore) : PastEntry :=
  let red_teams := redTeams m
  let blue_teams := blueTeams m
  let red_score := rs.totalPoints
  let blue_score := bs.totalPoints
  let aw := actualWinner red_score blue_score
  let red_opr := oprSum o red_teams
  let blue_opr := oprSum o blue_teams
  let pw := predPredictedWinner red_opr blue_opr
  let out := actualRps rs bs
  { match_number := m.id
    red_teams := red_teams
    blue_teams := blue_teams
    red_score := red_score
    blue_score := blue_score
    actual_winner := aw
    predicted_winner := pw
    red_opr_sum := round1 red_opr
    blue_opr_sum := round1 blue_opr
    correct_prediction := decide (aw ≠ Winner.tie ∧ aw = pw)
    red_rp := out.red_rp
    blue_rp := out.blue_rp
    red_movement_rp := rs.movementBonus
    blue_movement_rp := bs.movementBonus
    red_goal_rp := rs.goalBonus
    blue_goal_rp := bs.goalBonus
    red_pattern_rp := rs.patternBonus
    blue_pattern_rp := bs.patternBonus }

/-- A record of either output listing of get_event_predictions. -/
inductive ListingEntry
  | past (e : PastEntry)
  | upcoming (e : PredEntry)
deriving DecidableEq

/-- Embedding of the classification loop of get_event_predictions (app.py
    lines 449-618): every match whose id passes the non-qual filter lands in
    exactly one of the two listings, past when both alliance scores are
    present and upcoming otherwise; no alliance shape check is applied
    here. -/
def listEntries (o : List (ℤ × ℚ)) (r : ℤ → Option RpEntry) (ms : List Match) :
    List ListingEntry :=
  ms.filterMap (fun m =>
    if isSkipped m.id then none
    else
      match m.scores with
      | some sc =>
          match sc.red, sc.blue with
          | some rs, some bs => some (ListingEntry.past (mkPast o m rs bs))
          | _, _ => some (ListingEntry.upcoming (mkPred o r m))
      | none => some (ListingEntry.upcoming (mkPred o r m)))

/- Helper lemmas about the embedded operations. -/

theorem lookup_map_self (l : List ℤ) (f : ℤ → ℚ) (t : ℤ) (h : t ∈ l) :
    List.lookup t (l.map (fun x => (x, f x))) = some (f t) := by
  induction l with
  | nil => cases h
  | cons a l ih =>
    rw [List.map_cons]
    by_cases hta : t = a
    · subst hta; simp [List.lookup]
    · have ht : t ∈ l := by
        cases List.mem_cons.mp h with
        | inl h1 => exact absurd h1 hta
        | inr h2 => exact h2
      have hba : (t == a) = false := beq_eq_false_iff_ne.mpr hta
      simp [List.lookup, hba, ih ht]

theorem lookup_map_none (l : List ℤ) (f : ℤ → ℚ) (t : ℤ) (h : t ∉ l) :
    List.lookup t (l.map (fun x => (x, f x))) = none := by
  induction l with
  | nil => rfl
  | cons a l ih =>
    have hta : ¬ t = a := fun e => h (e ▸ List.mem_cons_self a l)
    have ht : t ∉ l := fun hm => h (List.mem_cons_of_mem a hm)
    have hba : (t == a) = false := beq_eq_false_iff_ne.mpr hta
    simp [List.lookup, hba, ih ht]

theorem mem_dedupAux (l : List ℤ) : ∀ (acc : List ℤ) (t : ℤ),
    t ∈ dedupAux l acc ↔ t ∈ acc ∨ t ∈ l := by
  induction l with
  | nil => intro acc t; simp [dedupAux]
  | cons a l ih =>
    intro acc t
    by_cases ha : a ∈ acc
    · rw [dedupAux, if_pos ha, ih]
      constructor
      · rintro (h | h)
        · exact Or.inl h
        · exact Or.inr (List.mem_cons_of_mem a h)
      · rintro (h | h)
        · exact Or.inl h
        · cases List.mem_cons.mp h with
          | inl e => exact Or.inl (e ▸ ha)
          | inr hm => exact Or.inr hm
    · rw [dedupAux, if_neg ha, ih]
      simp only [List.mem_cons]
      tauto

theorem mem_dedupFirst (l : List ℤ) (t : ℤ) : t ∈ dedupFirst l ↔ t ∈ l := by
  unfold dedupFirst
  rw [mem_dedupAux]
  simp

theorem mem_eventTeams (ms : List Match) (t : ℤ) : t ∈ eventTeams ms ↔ appearsIn t ms := by
  unfold eventTeams appearsIn
  rw [mem_dedupFirst]
  simp [List.mem_flatMap, List.mem_map]

theorem updateTeam_same (st : TState) (t : ℤ) (rp : ℤ) (win : ℚ) (pred : Bool) :
    updateTeam st t rp win pred t = (st t).map (addResult rp win pred) := by
  unfold updateTeam
  rw [if_pos rfl]

theorem updateTeam_other (st : TState) (a t : ℤ) (rp : ℤ) (win : ℚ) (pred : Bool)
    (h : t ≠ a) : updateTeam st a rp win pred t = st t := by
  unfold updateTeam
  rw [if_neg h]

theorem creditAlliance_cons (a : ℤ) (ts : List ℤ) (rp : ℤ) (win : ℚ) (pred : Bool)
    (st : TState) :
    creditAlliance (a :: ts) rp win pred st
      = creditAlliance ts rp win pred (updateTeam st a rp win pred) := rfl

theorem creditAlliance_not_mem (ts : List ℤ) (rp : ℤ) (win : ℚ) (pred : Bool) :
    ∀ (st : TState) (t : ℤ), t ∉ ts → creditAlliance ts rp win pred st t = st t := by
  induction ts with
  | nil => intro st t _; rfl
  | cons a ts ih =>
    intro st t h
    have hta : t ≠ a := fun e => h (e ▸ List.mem_cons_self a ts)
    have h2 : t ∉ ts := fun hm => h (List.mem_cons_of_mem a hm)
    rw [creditAlliance_cons, ih _ t h2, updateTeam_other st a t rp win pred hta]

theorem creditAlliance_mem (ts : List ℤ) (rp : ℤ) (win : ℚ) (pred : Bool) :
    ∀ (st : TState) (t : ℤ), ts.Nodup → t ∈ ts →
    creditAlliance ts rp win pred st t = (st t).map (addResult rp win pred) := by
  induction ts with
  | nil => intro st t _ h; cases h
  | cons a ts ih =>
    intro st t hnd hmem
    rw [List.nodup_cons] at hnd
    rw [creditAlliance_cons]
    by_cases hta : t = a
    · subst hta
      rw [creditAlliance_not_mem ts rp win pred _ t hnd.1,
        updateTeam_same st t rp win pred]
    · have hmem2 : t ∈ ts := by
        cases List.mem_cons.mp hmem with
        | inl e => exact absurd e hta
        | inr hm => exact hm
      rw [ih _ t hnd.2 hmem2, updateTeam_other st a t rp win pred hta]

/-- Invariant connecting a team's per-match score list with its match
    count: the contributing-match count equals the length of the recorded
    per-match ranking point list. -/
def StatsInv (s : TeamStats) : Prop := s.scores.length = s.total_matches

theorem statsInv_addResult (rp : ℤ) (win : ℚ) (pred : Bool) (s : TeamStats)
    (h : StatsInv s) : StatsInv (addResult rp win pred s) := by
  unfold StatsInv addResult at *
  simp [h]

theorem statsInv_updateTeam (st : TState) (a : ℤ) (rp : ℤ) (win : ℚ) (pred : Bool)
    (h : ∀ t s, st t = some s → StatsInv s) :
    ∀ t s, updateTeam st a rp win pred t = some s → StatsInv s := by
  intro t s hs
  unfold updateTeam at hs
  by_cases hta : t = a
  · rw [if_pos hta] at hs
    rcases Option.map_eq_some'.mp hs with ⟨s0, hs0, he⟩
    exact he ▸ statsInv_addResult rp win pred s0 (h a s0 hs0)
  · rw [if_neg hta] at hs
    exact h t s hs

theorem statsInv_credit (ts : List ℤ) (rp : ℤ) (win : ℚ) (pred : Bool) :
    ∀ (st : TState), (∀ t s, st t = some s → StatsInv s) →
    ∀ t s, creditAlliance ts rp win pred st t = some s → StatsInv s := by
  induction ts with
  | nil => intro st h; exact h
  | cons a ts ih =>
    intro st h
    simp only [creditAlliance_cons]
    exact ih _ (statsInv_updateTeam st a rp win pred h)

theorem statsInv_played (red_teams blue_teams : List ℤ) (rs bs : AllianceScore)
    (st : TState) (h : ∀ t s, st t = some s → StatsInv s) :
    ∀ t s, playedUpdate red_teams blue_teams rs bs st t = some s → StatsInv s := by
  unfold playedUpdate
  exact statsInv_credit _ _ _ _ _ (statsInv_credit _ _ _ _ _ h)

theorem statsInv_predicted (o : List (ℤ × ℚ)) (r : ℤ → Option RpEntry)
    (red_teams blue_teams : List ℤ) (st : TState)
    (h : ∀ t s, st t = some s → StatsInv s) :
    ∀ t s, predictedUpdate o r red_teams blue_teams st t = some s → StatsInv s := by
  unfold predictedUpdate
  cases lbPredictedWinner (oprSum o red_teams) (oprSum o blue_teams) <;>
    exact statsInv_credit _ _ _ _ _ (statsInv_credit _ _ _ _ _ h)

theorem statsInv_processMatch (o : List (ℤ × ℚ)) (r : ℤ → Option RpEntry) (st : TState)
    (m : Match) (h : ∀ t s, st t = some s → StatsInv s) :
    ∀ t s, processMatch o r st m t = some s → StatsInv s := by
  unfold processMatch
  split
  · exact h
  · dsimp only
    split
    · cases m.scores with
      | none => exact statsInv_predicted _ _ _ _ _ h
      | some sc =>
          dsimp only
          cases sc.red with
          | none => exact statsInv_predicted _ _ _ _ _ h
          | some rs =>
              cases sc.blue with
              | none => exact statsInv_predicted _ _ _ _ _ h
              | some bs => exact statsInv_played _ _ _ _ _ h
    · exact h

theorem statsInv_base : ∀ t s, initState [] t = some s → StatsInv s := by
  intro t s hs
  unfold initState at hs
  split at hs
  · cases hs
    rfl
  · cases hs

theorem statsInv_final (o : List (ℤ × ℚ)) (r : ℤ → Option RpEntry) (ms : List Match) :
    ∀ t s, finalState o r ms t = some s → StatsInv s := by
  unfold finalState
  have hinit : ∀ t s, initState o t = some s → StatsInv s := by
    intro t s hs
    unfold initState at hs
    split at hs
    · cases hs
      rfl
    · cases hs
  revert hinit
  generalize initState o = st0
  intro hinit
  induction ms generalizing st0 with
  | nil => exact hinit
  | cons m ms ih =>
    simp only [List.foldl_cons]
    exact ih _ (statsInv_processMatch o r st0 m hinit)

/- Concrete fixtures used by the claim theorems and witnesses. -/

/-- Oracle with no upstream data for any team. -/
def fnone : ℤ → Option ℚ := fun _ => none

/-- Bonus statistics oracle with no data for any team. -/
def rpNone : ℤ → Option RpEntry := fun _ => none

/-- A single played match between four distinct teams: two alliance
    equations against four unknowns. -/
def mA : Match :=
  { id := MatchId.int 1
    teams := [⟨1, "Red"⟩, ⟨2, "Red"⟩, ⟨3, "Blue"⟩, ⟨4, "Blue"⟩]
    scores := some { red := some ⟨10, false, false, false⟩
                     blue := some ⟨20, false, false, false⟩, extra := false } }

/-- The same fixture with different final scores. -/
def mAalt : Match :=
  { id := MatchId.int 1
    teams := [⟨1, "Red"⟩, ⟨2, "Red"⟩, ⟨3, "Blue"⟩, ⟨4, "Blue"⟩]
    scores := some { red := some ⟨100, false, false, false⟩
                     blue := some ⟨0, false, false, false⟩, extra := false } }

/-- A single scheduled match: its four teams have zero played alliances. -/
def mB : Match :=
  { id := MatchId.int 2
    teams := [⟨5, "Red"⟩, ⟨6, "Red"⟩, ⟨7, "Blue"⟩, ⟨8, "Blue"⟩]
    scores := none }

/-- OPR table making the blue alliance of mSchedC2 strictly stronger. -/
def oprC2 : List (ℤ × ℚ) := [(1, 0), (2, 0), (3, 5), (4, 5)]

/-- A scheduled match whose blue alliance has the strictly larger OPR sum. -/
def mSchedC2 : Match :=
  { id := MatchId.int 3
    teams := [⟨1, "Red"⟩, ⟨2, "Red"⟩, ⟨3, "Blue"⟩, ⟨4, "Blue"⟩]
    scores := none }

/-- A match whose scores object is present but carries only the red
    alliance's score. -/
def mC3 : Match :=
  { id := MatchId.int 4
    teams := [⟨1, "Red"⟩, ⟨2, "Red"⟩, ⟨3, "Blue"⟩, ⟨4, "Blue"⟩]
    scores := some { red := some ⟨30, false, false, false⟩, blue := none, extra := false } }

/-- OPR table giving the red alliance of mSchedC5 the sum 100 and the blue
    alliance the sum 60. -/
def oprC5 : List (ℤ × ℚ) := [(1, 60), (2, 40), (3, 10), (4, 50)]

/-- A scheduled match used for the worked confidence example. -/
def mSchedC5 : Match :=
  { id := MatchId.int 5
    teams := [⟨1, "Red"⟩, ⟨2, "Red"⟩, ⟨3, "Blue"⟩, ⟨4, "Blue"⟩]
    scores := none }

/-- OPR table tracking the four teams of the played fixtures. -/
def oprC8 : List (ℤ × ℚ) := [(1, 0), (2, 0), (3, 0), (4, 0)]

/-- First played fixture: red wins 50 to 40, no bonuses. -/
def mP1 : Match :=
  { id := MatchId.int 11
    teams := [⟨1, "Red"⟩, ⟨2, "Red"⟩, ⟨3, "Blue"⟩, ⟨4, "Blue"⟩]
    scores := some { red := some ⟨50, false, false, false⟩
                     blue := some ⟨40, false, false, false⟩, extra := false } }

/-- Second played fixture: blue wins 40 to 10, no bonuses. -/
def mP2 : Match :=
  { id := MatchId.int 12
    teams := [⟨1, "Red"⟩, ⟨2, "Red"⟩, ⟨3, "Blue"⟩, ⟨4, "Blue"⟩]
    scores := some { red := some ⟨10, false, false, false⟩
                     blue := some ⟨40, false, false, false⟩, extra := false } }

/-- Leaderboard row of team 1 after the two played fixtures: per-match
    ranking points 3 then 0, so the even-count median picks the
    upper-middle element 3 of the sorted list. -/
def eC8 : LeaderboardEntry :=
  { team_number := 1, avg_rp := 3/2, total_rp := 3, total_matches := 2
    win_rate := 50, median_rp := 3, has_predictions := false }

/-- A team whose per-bonus percentages are all exactly 50, so every averaged
    probability is exactly one half. -/
def rpHalf : ℤ → Option RpEntry := fun _ => some
  { movement_rp := false, goal_rp := false, pattern_rp := false
    movement_avg := 50, goal_avg := 50, pattern_avg := 50
    movement_prob := 50, goal_prob := 50, pattern_prob := 50 }

/-- A malformed match: only one team on the red alliance. -/
def mMalf : Match :=
  { id := MatchId.int 7
    teams := [⟨1, "Red"⟩, ⟨3, "Blue"⟩, ⟨4, "Blue"⟩]
    scores := none }

/-- A malformed match whose id also triggers the non-qual filter. -/
def mMalfSkip : Match :=
  { id := MatchId.str "20000"
    teams := [⟨1, "Red"⟩, ⟨3, "Blue"⟩, ⟨4, "Blue"⟩]
    scores := none }

/-- A well-formed scheduled match whose id triggers the non-qual filter. -/
def mSkip : Match :=
  { id := MatchId.str "10001"
    teams := [⟨1, "Red"⟩, ⟨2, "Red"⟩, ⟨3, "Blue"⟩, ⟨4, "Blue"⟩]
    scores := none }

/-- A played match whose id triggers the non-qual filter. -/
def mSkipPlayed : Match :=
  { id := MatchId.str "10001"
    teams := [⟨1, "Red"⟩, ⟨2, "Red"⟩, ⟨3, "Blue"⟩, ⟨4, "Blue"⟩]
    scores := some { red := some ⟨10, false, false, false⟩
                     blue := some ⟨20, false, false, false⟩, extra := false } }

/- Claim theorems. -/

/-- Claim C1 is false on the code: the OPR estimator performs no
    least-squares regression and does not return an empty mapping in the
    under-determined case.  The fixture mA is one played match (two
    alliance-equations) over four distinct teams, yet calculate_opr returns
    four entries; moreover the result is identical for mAalt, which differs
    from mA only in the final scores, so the ratings cannot be a function of
    the alliance score equations at all. -/
theorem c1_counterexample :
    (eventTeams [mA]).length = 4 ∧
    List.countP (fun m => m.isPlayedFull) [mA] = 1 ∧
    calculate_opr [mA] fnone fnone false = [(1, 0), (2, 0), (3, 0), (4, 0)] ∧
    mAalt.scores ≠ mA.scores ∧
    calculate_opr [mAalt] fnone fnone false = calculate_opr [mA] fnone fnone false := by
  refine ⟨by decide, by decide, by decide, by decide, by decide⟩

/-- Claim C1 amended: calculate_opr performs no regression; it returns an
    empty mapping exactly when the event's match list is empty (or contains
    no team entries at all), and otherwise maps every team appearing in any
    match, played or not, to the upstream-reported OPR statistic for the
    selected mode (totalPointsNp for the current event, highest season OPR
    otherwise), defaulting to 0 when the upstream has no statistics,
    regardless of how many matches have been played. -/
theorem c1_amended (ms : List Match) (statsOpr seasonHighest : ℤ → Option ℚ) (u : Bool) :
    (calculate_opr ms statsOpr seasonHighest u = [] ↔ ms = [] ∨ eventTeams ms = []) ∧
    (∀ t : ℤ, appearsIn t ms →
      List.lookup t (calculate_opr ms statsOpr seasonHighest u)
        = some (oprValue statsOpr seasonHighest u t)) := by
  constructor
  · unfold calculate_opr
    by_cases h : ms.isEmpty = true
    · rw [if_pos h, List.isEmpty_iff.mp h]
      simp
    · rw [if_neg h]
      have hne : ms ≠ [] := fun e => h (by rw [e]; rfl)
      rw [List.map_eq_nil_iff]
      constructor
      · exact fun he => Or.inr he
      · rintro (he | he)
        · exact absurd he hne
        · exact he
  · intro t ht
    have hmem : t ∈ eventTeams ms := (mem_eventTeams ms t).mpr ht
    have hne : ¬ ms.isEmpty = true := by
      rcases ht with ⟨m, hm, _⟩
      intro he
      rw [List.isEmpty_iff.mp he] at hm
      cases hm
    unfold calculate_opr
    rw [if_neg hne]
    exact lookup_map_self _ _ _ hmem

/-- Witness for the amended claim C1 at a concrete input: team 3 appears in
    the single match mA and its entry is the defaulted upstream value 0. -/
theorem c1_amended_witness :
    appearsIn 3 [mA] ∧
    List.lookup 3 (calculate_opr [mA] fnone fnone false) = some 0 := by
  have h := (c1_amended [mA] fnone fnone false).2 3 (by decide)
  exact ⟨by decide, by rw [h]; rfl⟩

/-- Claim C4 is false on the code: the four teams of the scheduled fixture
    mB appear in zero played alliances, yet each receives an entry in the
    OPR mapping (value 0), instead of receiving no entry. -/
theorem c4_counterexample :
    List.countP (fun m => m.isPlayedFull) [mB] = 0 ∧
    List.lookup 5 (calculate_opr [mB] fnone fnone false) = some 0 := by
  exact ⟨by decide, by decide⟩

/-- Claim C4 amended: the estimator omits exactly the teams appearing in no
    match of the event; every team appearing in any match, played or
    scheduled, receives an entry (0 when the upstream has no statistics), so
    only teams absent from the match list are left for callers to default to
    OPR 0. -/
theorem c4_amended (ms : List Match) (statsOpr seasonHighest : ℤ → Option ℚ) (u : Bool)
    (t : ℤ) :
    (¬ appearsIn t ms →
      List.lookup t (calculate_opr ms statsOpr seasonHighest u) = none) ∧
    (appearsIn t ms →
      (List.lookup t (calculate_opr ms statsOpr seasonHighest u)).isSome = true) := by
  constructor
  · intro h
    unfold calculate_opr
    by_cases he : ms.isEmpty = true
    · rw [if_pos he]
      rfl
    · rw [if_neg he]
      exact lookup_map_none _ _ _ (fun hm => h ((mem_eventTeams ms t).mp hm))
  · intro h
    have hmem : t ∈ eventTeams ms := (mem_eventTeams ms t).mpr h
    have hne : ¬ ms.isEmpty = true := by
      rcases h with ⟨m, hm, _⟩
      intro he
      rw [List.isEmpty_iff.mp he] at hm
      cases hm
    unfold calculate_opr
    rw [if_neg hne, lookup_map_self _ _ _ hmem]
    rfl

/-- Witness for the amended claim C4 at a concrete input: team 99 appears in
    no match of the fixture and has no entry. -/
theorem c4_amended_witness :
    ¬ appearsIn 99 [mB] ∧
    List.lookup 99 (calculate_opr [mB] fnone fnone false) = none := by
  exact ⟨by decide, (c4_amended [mB] fnone fnone false 99).1 (by decide)⟩

/-- Claim C2 names a code bug: in calculate_leaderboard (app.py line 297)
    the elif compares blue_opr less-than red_opr instead of greater-than, so
    the blue branch is dead code and every scheduled match whose red OPR sum
    does not strictly exceed blue is predicted a tie, contradicting the
    claim that a scheduled-match prediction is never a tie.  The listing
    predictor of get_event_predictions (line 593) conforms to the claim.
    The last conjunct runs the leaderboard pipeline at the failing input:
    team 3 of the strictly stronger blue alliance receives tie credit, win
    one half and one ranking point, instead of the win outcome. -/
theorem c2_code_bug :
    (∀ red_opr blue_opr : ℚ,
      lbPredictedWinner red_opr blue_opr
        = if red_opr > blue_opr then Winner.red else Winner.tie) ∧
    lbPredictedWinner 0 10 = Winner.tie ∧
    predPredictedWinner 0 10 = Winner.blue ∧
    (finalState oprC2 rpNone [mSchedC2]) 3
      = some { total_rp := 1, total_wins := 1/2, total_matches := 1, scores := [1],
               is_predicted := true } := by
  refine ⟨?_, by decide, by decide, ?_⟩
  · intro red_opr blue_opr
    unfold lbPredictedWinner
    by_cases h : red_opr > blue_opr
    · rw [if_pos h, if_pos h]
    · rw [if_neg h, if_neg h, if_neg h]
  · norm_num +decide [finalState, processMatch, predictedUpdate, creditAlliance,
      updateTeam, addResult, initState, baseStats, calculate_alliance_rps, rpField,
      rpNone, oprSum, lookupD, hasKey, oprC2, mSchedC2, redTeams, blueTeams, isSkipped,
      lbPredictedWinner, List.sum_cons, List.sum_nil]

/-- Claim C3 is false on the code: the event status counts of app.py lines
    365-366 test only that the scores object is truthy, not that both
    alliance scores are present.  The fixture mC3 carries only a red score,
    so by the claim it is scheduled and the event should not be completed,
    but the code counts it played and reports completed. -/
theorem c3_counterexample :
    mC3.isPlayedFull = false ∧
    (calculate_leaderboard [] rpNone [mC3]).event_status = "completed" ∧
    (calculate_leaderboard [] rpNone [mC3]).played_matches = 1 := by
  refine ⟨by decide, by decide, by decide⟩

/-- Claim C3 amended: the status is completed exactly when every match has a
    truthy scores object, not started exactly when no match has one and at
    least one match exists, and in progress otherwise; for these counts a
    match counts as played whenever its scores object is present and
    nonempty, even if one alliance's score is missing inside it (the
    both-alliances test governs only the per-match aggregation). -/
theorem eventStatus_spec (p n : ℕ) (hle : p ≤ n) :
    (eventStatus p (n - p) = "completed" ↔ p = n) ∧
    (eventStatus p (n - p) = "not_started" ↔ p = 0 ∧ 0 < n) ∧
    (eventStatus p (n - p) = "in_progress" ↔ 0 < p ∧ p < n) := by
  unfold eventStatus
  by_cases h1 : 0 < n - p <;> by_cases h2 : 0 < p <;>
    simp [h1, h2] <;> omega

theorem c3_amended (o : List (ℤ × ℚ)) (r : ℤ → Option RpEntry) (ms : List Match) :
    (calculate_leaderboard o r ms).played_matches
      = ms.countP (fun m => m.scoresTruthy) ∧
    (calculate_leaderboard o r ms).upcoming_matches
      = ms.length - ms.countP (fun m => m.scoresTruthy) ∧
    ((calculate_leaderboard o r ms).event_status = "completed" ↔
      ms.countP (fun m => m.scoresTruthy) = ms.length) ∧
    ((calculate_leaderboard o r ms).event_status = "not_started" ↔
      ms.countP (fun m => m.scoresTruthy) = 0 ∧ 0 < ms.length) ∧
    ((calculate_leaderboard o r ms).event_status = "in_progress" ↔
      0 < ms.countP (fun m => m.scoresTruthy) ∧
        ms.countP (fun m => m.scoresTruthy) < ms.length) := by
  have hle : ms.countP (fun m => m.scoresTruthy) ≤ ms.length :=
    List.countP_le_length _
  have hs : (calculate_leaderboard o r ms).event_status
      = eventStatus (ms.countP (fun m => m.scoresTruthy))
          (ms.length - ms.countP (fun m => m.scoresTruthy)) := rfl
  have h := eventStatus_spec (ms.countP (fun m => m.scoresTruthy)) ms.length hle
  refine ⟨rfl, rfl, ?_, ?_, ?_⟩ <;> rw [hs]
  · exact h.1
  · exact h.2.1
  · exact h.2.2

/-- Witness for the amended claim C3 at a concrete input: with the single
    partially-scored match mC3 the truthy count is 1 of 1 and the status is
    reported completed. -/
theorem c3_amended_witness :
    List.countP (fun m => m.scoresTruthy) [mC3] = List.length [mC3] ∧
    (calculate_leaderboard [] rpNone [mC3]).event_status = "completed" := by
  exact ⟨by decide, ((c3_amended [] rpNone [mC3]).2.2.1).mpr (by decide)⟩

/-- Claim C5 is false in one point: the confidence is also 0 when the two
    OPR sums are equal (and when their total is negative), not only when the
    denominator is 0; here both sums are 50, the denominator is 100, and the
    confidence is still 0. -/
theorem c5_counterexample :
    confidence 50 50 = 0 ∧ (50 : ℚ) + 50 = 100 := by
  constructor
  · norm_num [confidence]
  · norm_num

/-- Claim C5 amended: the confidence equals the absolute OPR gap over the
    OPR total as a percentage when the total is positive and 0 otherwise, so
    it is 0 exactly when the total is not positive or the two sums are equal
    (the reported field additionally rounds to one decimal); the winner
    confidence is round(confidence + 50) clamped into 50 to 100; and the
    worked example red 100 versus blue 60 yields predicted winner red,
    confidence 25.0 and winner confidence 75, also through the prediction
    record built for a scheduled match. -/
theorem c5_amended (red_opr blue_opr : ℚ) :
    (red_opr + blue_opr = 0 → confidence red_opr blue_opr = 0) ∧
    (confidence red_opr blue_opr = 0 ↔ red_opr + blue_opr ≤ 0 ∨ red_opr = blue_opr) ∧
    50 ≤ winner_confidence (confidence red_opr blue_opr) ∧
    winner_confidence (confidence red_opr blue_opr) ≤ 100 ∧
    confidence 100 60 = 25 ∧
    winner_confidence (confidence 100 60) = 75 ∧
    (mkPred oprC5 rpNone mSchedC5).predicted_winner = Winner.red ∧
    (mkPred oprC5 rpNone mSchedC5).confidence_percentage = 25 ∧
    (mkPred oprC5 rpNone mSchedC5).winner_confidence = 75 := by
  refine ⟨?_, ?_, ?_, ?_, ?_, ?_, ?_, ?_, ?_⟩
  · intro h
    unfold confidence
    rw [if_neg (by rw [h]; exact lt_irrefl 0)]
  · unfold confidence
    by_cases hpos : red_opr + blue_opr > 0
    · rw [if_pos hpos]
      have hne : red_opr + blue_opr ≠ 0 := ne_of_gt hpos
      constructor
      · intro h
        rcases mul_eq_zero.mp h with h1 | h2
        · rcases div_eq_zero_iff.mp h1 with h3 | h4
          · exact Or.inr (sub_eq_zero.mp (abs_eq_zero.mp h3))
          · exact absurd h4 hne
        · norm_num at h2
      · rintro (h | h)
        · exact absurd hpos (not_lt.mpr h)
        · rw [h]
          simp
    · rw [if_neg hpos]
      simp [le_of_not_lt hpos]
  · exact le_min (by norm_num) (le_max_left 50 _)
  · exact min_le_left _ _
  · norm_num [confidence]
  · norm_num [winner_confidence, confidence, pyRound]
  · norm_num +decide [mkPred, oprC5, mSchedC5, redTeams, blueTeams, oprSum, lookupD,
      predPredictedWinner, List.sum_cons, List.sum_nil]
  · norm_num +decide [mkPred, oprC5, mSchedC5, redTeams, blueTeams, oprSum, lookupD,
      predPredictedWinner, confidence, round1, pyRound, List.sum_cons, List.sum_nil]
  · norm_num +decide [mkPred, oprC5, mSchedC5, redTeams, blueTeams, oprSum, lookupD,
      predPredictedWinner, confidence, winner_confidence, pyRound, List.sum_cons,
      List.sum_nil]

/-- Witness for the amended claim C5 at a concrete input with denominator
    0: red 1 and blue negative 1 give confidence 0. -/
theorem c5_amended_witness :
    (1 : ℚ) + (-1) = 0 ∧ confidence 1 (-1) = 0 := by
  exact ⟨by norm_num, (c5_amended 1 (-1)).1 (by norm_num)⟩

/-- Claim C6 confirmed: for a played match the actual ranking points of each
    alliance are one point per recorded achieved bonus flag plus 3 points
    for winning on total score, or 1 point each on a tie, and the win credit
    accumulated into each tracked member team is 1 for a win, 0 for a loss
    and one half for a tie; the second half shows the per-team accumulation
    through processMatch for members of either alliance. -/
theorem c6_actual_scoring :
    (∀ rs bs : AllianceScore,
      (actualRps rs bs).red_rp
        = ((if rs.movementBonus then 1 else 0) + (if rs.goalBonus then 1 else 0)
            + (if rs.patternBonus then 1 else 0))
          + (if rs.totalPoints > bs.totalPoints then 3
             else if bs.totalPoints > rs.totalPoints then 0 else 1) ∧
      (actualRps rs bs).blue_rp
        = ((if bs.movementBonus then 1 else 0) + (if bs.goalBonus then 1 else 0)
            + (if bs.patternBonus then 1 else 0))
          + (if bs.totalPoints > rs.totalPoints then 3
             else if rs.totalPoints > bs.totalPoints then 0 else 1) ∧
      (actualRps rs bs).red_win
        = (if rs.totalPoints > bs.totalPoints then 1
           else if bs.totalPoints > rs.totalPoints then 0 else 1/2) ∧
      (actualRps rs bs).blue_win
        = (if bs.totalPoints > rs.totalPoints then 1
           else if rs.totalPoints > bs.totalPoints then 0 else 1/2)) ∧
    (∀ (o : List (ℤ × ℚ)) (r : ℤ → Option RpEntry) (st : TState) (m : Match)
        (sc : ScoresDict) (rs bs : AllianceScore) (t : ℤ),
      isSkipped m.id = false →
      m.scores = some sc → sc.red = some rs → sc.blue = some bs →
      (redTeams m).length = 2 → (blueTeams m).length = 2 →
      (redTeams m).Nodup → (blueTeams m).Nodup →
      ((t ∈ redTeams m → t ∉ blueTeams m →
        processMatch o r st m t
          = (st t).map
              (addResult (actualRps rs bs).red_rp (actualRps rs bs).red_win false)) ∧
       (t ∈ blueTeams m → t ∉ redTeams m →
        processMatch o r st m t
          = (st t).map
              (addResult (actualRps rs bs).blue_rp (actualRps rs bs).blue_win false)))) := by
  constructor
  · intro rs bs
    unfold actualRps actualWinner
    by_cases h1 : rs.totalPoints > bs.totalPoints
    · simp [h1, le_of_lt h1, lt_asymm h1]
    · by_cases h2 : bs.totalPoints > rs.totalPoints
      · simp [h1, h2, le_of_lt h2, lt_asymm h2]
      · simp [h1, h2]
  · intro o r st m sc rs bs t hsk hsc hred hblue hl1 hl2 hnd1 hnd2
    have hpm : processMatch o r st m
        = playedUpdate (redTeams m) (blueTeams m) rs bs st := by
      unfold processMatch
      rw [if_neg (by rw [hsk]; exact Bool.false_ne_true)]
      dsimp only
      rw [if_pos ⟨hl1, hl2⟩, hsc]
      dsimp only
      rw [hred, hblue]
    constructor
    · intro hmem hnot
      rw [hpm]
      unfold playedUpdate
      rw [creditAlliance_not_mem _ _ _ _ _ t hnot,
        creditAlliance_mem _ _ _ _ st t hnd1 hmem]
    · intro hmem hnot
      rw [hpm]
      unfold playedUpdate
      rw [creditAlliance_mem _ _ _ _ _ t hnd2 hmem,
        creditAlliance_not_mem _ _ _ _ st t hnot]

/-- Witness for claim C6 at a concrete input: processing the played fixture
    mP1 (red wins 50 to 40, no bonuses) gives team 1 exactly 3 ranking
    points and win credit 1. -/
theorem c6_witness :
    processMatch oprC8 rpNone (initState oprC8) mP1 1
      = some { total_rp := 3, total_wins := 1, total_matches := 1, scores := [3],
               is_predicted := false } := by
  have h := (c6_actual_scoring.2 oprC8 rpNone (initState oprC8) mP1
      { red := some ⟨50, false, false, false⟩, blue := some ⟨40, false, false, false⟩,
        extra := false }
      ⟨50, false, false, false⟩ ⟨40, false, false, false⟩ 1
      rfl rfl rfl rfl (by decide) (by decide) (by decide) (by decide)).1
      (by decide) (by decide)
  rw [h]
  norm_num +decide [initState, hasKey, oprC8, baseStats, addResult, actualRps,
    actualWinner]


/-- Claim C7 confirmed: in both the leaderboard helper calculate_alliance_rps
    and the prediction helper predict_alliance_rps, a bonus objective is
    predicted achieved exactly when the average of the two member teams'
    per-bonus probabilities (their stored percentages over 100) strictly
    exceeds one half; the last two conjuncts instantiate the exactly-one-half
    averages of rpHalf and show the objective is then predicted not
    achieved. -/
theorem c7_bonus_threshold (r : ℤ → Option RpEntry) (t1 t2 : ℤ) :
    ((calculate_alliance_rps r [t1, t2]).movement
      = if ((rpField r t1 RpEntry.movement_prob : ℚ) / 100
            + (rpField r t2 RpEntry.movement_prob : ℚ) / 100) / 2 > 1/2 then 1 else 0) ∧
    ((calculate_alliance_rps r [t1, t2]).goal
      = if ((rpField r t1 RpEntry.goal_prob : ℚ) / 100
            + (rpField r t2 RpEntry.goal_prob : ℚ) / 100) / 2 > 1/2 then 1 else 0) ∧
    ((calculate_alliance_rps r [t1, t2]).pattern
      = if ((rpField r t1 RpEntry.pattern_prob : ℚ) / 100
            + (rpField r t2 RpEntry.pattern_prob : ℚ) / 100) / 2 > 1/2 then 1 else 0) ∧
    ((predict_alliance_rps r [t1, t2]).movement_rp
      = decide (((rpField r t1 RpEntry.movement_avg : ℚ) / 100
            + (rpField r t2 RpEntry.movement_avg : ℚ) / 100) / 2 > 1/2)) ∧
    ((predict_alliance_rps r [t1, t2]).goal_rp
      = decide (((rpField r t1 RpEntry.goal_avg : ℚ) / 100
            + (rpField r t2 RpEntry.goal_avg : ℚ) / 100) / 2 > 1/2)) ∧
    ((predict_alliance_rps r [t1, t2]).pattern_rp
      = decide (((rpField r t1 RpEntry.pattern_avg : ℚ) / 100
            + (rpField r t2 RpEntry.pattern_avg : ℚ) / 100) / 2 > 1/2)) ∧
    ((calculate_alliance_rps rpHalf [t1, t2]).movement = 0) ∧
    ((predict_alliance_rps rpHalf [t1, t2]).movement_rp = false) := by
  have key : ∀ p1 p2 : ℤ, ((p1 + p2 : ℤ) : ℚ) / 200
      = ((p1 : ℚ) / 100 + (p2 : ℚ) / 100) / 2 := by
    intro p1 p2
    push_cast
    ring
  have keyp : ∀ a1 a2 : ℤ, (((a1 + a2 : ℤ) : ℚ) / 2 > 50
      ↔ ((a1 : ℚ) / 100 + (a2 : ℚ) / 100) / 2 > 1/2) := by
    intro a1 a2
    push_cast
    constructor <;> intro h <;> linarith
  refine ⟨?_, ?_, ?_, ?_, ?_, ?_, ?_, ?_⟩
  · unfold calculate_alliance_rps
    dsimp only
    rw [key]
  · unfold calculate_alliance_rps
    dsimp only
    rw [key]
  · unfold calculate_alliance_rps
    dsimp only
    rw [key]
  · unfold predict_alliance_rps
    dsimp only
    rw [decide_eq_decide]
    exact keyp _ _
  · unfold predict_alliance_rps
    dsimp only
    rw [decide_eq_decide]
    exact keyp _ _
  · unfold predict_alliance_rps
    dsimp only
    rw [decide_eq_decide]
    exact keyp _ _
  · norm_num [calculate_alliance_rps, rpField, rpHalf]
  · norm_num [predict_alliance_rps, rpField, rpHalf]


/-- Claim C8 confirmed: every row of the final leaderboard belongs to a team
    with at least one contributing match, and its median ranking points is
    the element at index count over 2 (integer division) of the
    ascending-sorted per-match ranking point list of that team, where the
    count equals both the length of that list and the row's reported match
    count (so for an even count this is the upper-middle element, not an
    averaged median). -/
theorem c8_median (o : List (ℤ × ℚ)) (r : ℤ → Option RpEntry) (ms : List Match)
    (e : LeaderboardEntry) (he : e ∈ (calculate_leaderboard o r ms).leaderboard) :
    0 < e.total_matches ∧
    ∃ d : TeamStats, finalState o r ms e.team_number = some d ∧
      d.scores.length = e.total_matches ∧
      e.median_rp
        = (List.insertionSort (fun a b => a ≤ b) d.scores).getD (e.total_matches / 2) 0 := by
  have he2 : e ∈ (dedupFirst (o.map Prod.fst)).filterMap (fun t =>
      match finalState o r ms t with
      | some d => if 0 < d.total_matches then some (mkEntry t d) else none
      | none => none) :=
    (List.perm_insertionSort lbBefore _).mem_iff.mp he
  rcases List.mem_filterMap.mp he2 with ⟨t, ht, hsome⟩
  cases hst : finalState o r ms t with
  | none => rw [hst] at hsome; cases hsome
  | some d =>
    rw [hst] at hsome
    dsimp only at hsome
    by_cases hpos : 0 < d.total_matches
    · rw [if_pos hpos] at hsome
      injection hsome with h3
      subst h3
      have hinv : d.scores.length = d.total_matches := statsInv_final o r ms t d hst
      refine ⟨?_, d, ?_, ?_, ?_⟩
      · simpa [mkEntry] using hpos
      · simpa [mkEntry] using hst
      · simpa [mkEntry] using hinv
      · simp only [mkEntry]
        rw [hinv]
    · rw [if_neg hpos] at hsome
      cases hsome

/-- Witness for claim C8 at a concrete input: after the two played fixtures
    team 1's per-match ranking points are 3 then 0, an even count, and the
    reported median is the upper-middle element 3 of the sorted list, not
    the averaged 1.5. -/
theorem c8_median_witness :
    eC8 ∈ (calculate_leaderboard oprC8 rpNone [mP1, mP2]).leaderboard ∧
    0 < eC8.total_matches ∧
    ∃ d : TeamStats, finalState oprC8 rpNone [mP1, mP2] eC8.team_number = some d ∧
      d.scores.length = eC8.total_matches ∧
      eC8.median_rp
        = (List.insertionSort (fun a b => a ≤ b) d.scores).getD (eC8.total_matches / 2) 0 := by
  have hmem : eC8 ∈ (calculate_leaderboard oprC8 rpNone [mP1, mP2]).leaderboard := by
    norm_num +decide [calculate_leaderboard, finalState, processMatch, playedUpdate,
      creditAlliance, updateTeam, addResult, initState, hasKey, baseStats, actualRps,
      actualWinner, oprC8, mP1, mP2, redTeams, blueTeams, isSkipped, dedupFirst,
      dedupAux, mkEntry, eC8, round1, round2, pyRound, List.insertionSort,
      List.orderedInsert, lbBefore, List.sum_cons, List.sum_nil]
  exact ⟨hmem, c8_median oprC8 rpNone [mP1, mP2] eC8 hmem⟩


/-- Claim C9 is false in one point: a malformed match whose id also triggers
    the non-qual string filter (here id 20000 with a one-team red alliance)
    is skipped by the aggregation as the claim says, but does not appear in
    the raw predictions or past-match listings either, because the id filter
    removes it there first. -/
theorem c9_counterexample :
    (redTeams mMalfSkip).length = 1 ∧
    (∀ st : TState, processMatch [] rpNone st mMalfSkip = st) ∧
    listEntries [] rpNone [mMalfSkip] = [] := by
  refine ⟨by decide, fun st => rfl, by decide⟩

/-- Claim C9 amended: every match in which either alliance does not have
    exactly two teams is skipped entirely by leaderboard aggregation,
    leaving the whole team state unchanged, and such a match still appears
    in the raw listings provided its id does not trigger the non-qual
    filter. -/
theorem c9_amended (o : List (ℤ × ℚ)) (r : ℤ → Option RpEntry) (st : TState) (m : Match)
    (h : ¬ ((redTeams m).length = 2 ∧ (blueTeams m).length = 2)) :
    processMatch o r st m = st ∧
    (isSkipped m.id = false → (listEntries o r [m]).length = 1) := by
  constructor
  · unfold processMatch
    by_cases hs : isSkipped m.id = true
    · rw [if_pos hs]
    · rw [if_neg hs]
      dsimp only
      rw [if_neg h]
  · intro hns
    unfold listEntries
    rw [List.filterMap_cons]
    have hnsf : ¬ isSkipped m.id = true := by rw [hns]; exact Bool.false_ne_true
    cases hsc : m.scores with
    | none => simp [hnsf, hsc]
    | some sc =>
        cases hr : sc.red with
        | none => simp [hnsf, hsc, hr]
        | some rs =>
            cases hb : sc.blue with
            | none => simp [hnsf, hsc, hr, hb]
            | some bs => simp [hnsf, hsc, hr, hb]

/-- Witness for the amended claim C9 at a concrete input: the malformed
    fixture mMalf leaves the initial state unchanged and still produces one
    listing record. -/
theorem c9_amended_witness :
    processMatch [] rpNone (initState []) mMalf = initState [] ∧
    (listEntries [] rpNone [mMalf]).length = 1 := by
  have h := c9_amended [] rpNone (initState []) mMalf (by decide)
  exact ⟨h.1, h.2 rfl⟩

/-- Claim C10 confirmed: a match id that is a string parsing as an integer
    strictly greater than 10000 is skipped, integer ids and unparseable
    strings are never skipped; a skipped match contributes nothing to
    aggregation and is absent from both listings; yet the played and total
    match counts (and hence the event status derived from them) count every
    match, skipped or not. -/
theorem c10_nonqual_filter :
    (∀ (s : String) (n : ℤ), pyParseInt s = some n → 10000 < n →
      isSkipped (MatchId.str s) = true) ∧
    (∀ n : ℤ, isSkipped (MatchId.int n) = false) ∧
    (∀ s : String, pyParseInt s = none → isSkipped (MatchId.str s) = false) ∧
    (∀ (o : List (ℤ × ℚ)) (r : ℤ → Option RpEntry) (st : TState) (m : Match),
      isSkipped m.id = true →
      processMatch o r st m = st ∧ listEntries o r [m] = []) ∧
    (∀ (o : List (ℤ × ℚ)) (r : ℤ → Option RpEntry) (ms : List Match) (m : Match),
      (calculate_leaderboard o r (ms ++ [m])).played_matches
        = (calculate_leaderboard o r ms).played_matches
          + (if m.scoresTruthy then 1 else 0) ∧
      (calculate_leaderboard o r (ms ++ [m])).total_matches
        = (calculate_leaderboard o r ms).total_matches + 1) := by
  refine ⟨?_, ?_, ?_, ?_, ?_⟩
  · intro s n hp hn
    unfold isSkipped
    dsimp only
    rw [hp]
    exact decide_eq_true hn
  · intro n
    rfl
  · intro s hp
    unfold isSkipped
    dsimp only
    rw [hp]
  · intro o r st m hsk
    constructor
    · unfold processMatch
      rw [if_pos hsk]
    · unfold listEntries
      rw [List.filterMap_cons]
      simp [hsk]
  · intro o r ms m
    constructor
    · simp only [calculate_leaderboard, List.countP_append, List.countP_cons,
        List.countP_nil]
      cases hm : m.scoresTruthy <;> simp [hm]
    · simp only [calculate_leaderboard, List.length_append, List.length_cons,
        List.length_nil]

/-- Witness for claim C10 at a concrete input: id 10001 is skipped, the
    fixtures mSkip and mSkipPlayed are excluded from aggregation and the
    listings, yet the played count still counts mSkipPlayed. -/
theorem c10_nonqual_filter_witness :
    isSkipped (MatchId.str "10001") = true ∧
    processMatch [] rpNone (initState []) mSkip = initState [] ∧
    listEntries [] rpNone [mSkip] = [] ∧
    (calculate_leaderboard [] rpNone ([] ++ [mSkipPlayed])).played_matches
      = (calculate_leaderboard [] rpNone []).played_matches + 1 := by
  have h1 := c10_nonqual_filter.1 "10001" 10001 (by decide) (by decide)
  have h2 := c10_nonqual_filter.2.2.2.1 [] rpNone (initState []) mSkip (by decide)
  have h3 := (c10_nonqual_filter.2.2.2.2 [] rpNone [] mSkipPlayed).1
  refine ⟨h1, h2.1, h2.2, ?_⟩
  rw [h3]
  decide


end FTC
